import Mathlib

/-!
Shallow embedding of the AX-TrafficAnalyzer orchestration-relevant code paths:
the Electron main process (dependency checks, startup sequence, backend stop),
the Docker entrypoint command checks, the web UI WebSocket client and axios
response interceptor, the web UI traffic store, and the mobile auth store.
Each definition is translated directly from the corresponding source file.
-/

/-! ## Traffic store (`community/ui/src/stores/trafficStore.ts`)

`addFlow: (flow) => set((state) => ({ flows: [flow, ...state.flows].slice(0, 100) }))`
Flows are abstracted to their identifiers (`Nat`); the list head is the newest flow. -/

namespace Traffic

def maxFlows : Nat := 100

def addFlow (flows : List Nat) (flow : Nat) : List Nat :=
  (flow :: flows).take maxFlows

def fullFlows : List Nat := List.range maxFlows

end Traffic

/-! ## WebSocket client (`community/ui/src/lib/websocket.ts`)

State of `WebSocketClient`: `shouldReconnect`, `reconnectAttempts`,
`ws` (present or `null`), `listeners` (registration list of (event, callback id)).
Side effects are reified as `Action`s: `setTimeout(() => this.connect(token), 2000 * n)`
becomes `scheduleReconnect`, `ws.close()` becomes `closeSocket`, and a listener
callback invocation becomes `deliver`. -/

namespace WS

def maxReconnectAttempts : Nat := 5

/-- Delay passed to `setTimeout` on the n-th reconnect attempt:
`2000 * this.reconnectAttempts` (after the increment). -/
def reconnectDelayMs (attempts : Nat) : Nat := 2000 * attempts

structure Client where
  shouldReconnect : Bool
  reconnectAttempts : Nat
  ws : Option Unit
  listeners : List (String × Nat)
deriving DecidableEq, Repr

inductive Action where
  | scheduleReconnect (delayMs : Nat)
  | closeSocket
  | deliver (callbackId : Nat)
deriving DecidableEq, Repr

/-- `connect(token)`: sets `shouldReconnect = true` and installs a fresh socket. -/
def connect (c : Client) : Client :=
  { c with shouldReconnect := true, ws := some () }

/-- `onopen` handler: `this.reconnectAttempts = 0`. -/
def onOpen (c : Client) : Client :=
  { c with reconnectAttempts := 0 }

/-- `reconnect(token)`: bail out if `shouldReconnect` is false; otherwise, if
`reconnectAttempts < maxReconnectAttempts`, increment and schedule a delayed
`connect`; otherwise log and do nothing. -/
def reconnect (c : Client) : Client × List Action :=
  if !c.shouldReconnect then (c, [])
  else if c.reconnectAttempts < maxReconnectAttempts then
    ({ c with reconnectAttempts := c.reconnectAttempts + 1 },
     [Action.scheduleReconnect (reconnectDelayMs (c.reconnectAttempts + 1))])
  else (c, [])

/-- `emit(event, data)`: invoke every callback registered for `event`. -/
def emit (c : Client) (event : String) : List Action :=
  (c.listeners.filter (fun p => p.1 = event)).map (fun p => Action.deliver p.2)

/-- `disconnect()`: `shouldReconnect = false; this.ws?.close(); this.ws = null;
this.listeners.clear()`. `reconnectAttempts` is not touched. -/
def disconnect (c : Client) : Client × List Action :=
  (⟨false, c.reconnectAttempts, none, []⟩,
   match c.ws with
   | some _ => [Action.closeSocket]
   | none => [])

/-- Socket-driven events: `onclose` (which calls `reconnect`) and `onmessage`
(which calls `emit`). -/
inductive SocketEvent where
  | close
  | message (event : String)

def step (c : Client) : SocketEvent → Client × List Action
  | SocketEvent.close => reconnect c
  | SocketEvent.message ev => (c, emit c ev)

def run : Client → List SocketEvent → Client × List Action
  | c, [] => (c, [])
  | c, e :: es =>
    let p := step c e
    let q := run p.1 es
    (q.1, p.2 ++ q.2)

end WS

/-! ## Electron main process (`desktop/electron/main.ts`)

`checkDependencies` runs the Node version check, then (in production only) the
backend-bundle check, then the UI-bundle check. Every failing check calls
`failFast`, which logs, shows a dialog and calls `app.exit(1)` — so later
checks never run and only the first failure is reported. -/

namespace Deps

inductive Check where
  | nodeVersion
  | backendBundle
  | uiBundle
deriving DecidableEq, Repr

structure Env where
  nodeMajor : Nat
  isDev : Bool
  backendBundleExists : Bool
  uiBundleExists : Bool
deriving DecidableEq, Repr

/-- The checks `checkDependencies` would perform in this environment, in source
order; the backend-bundle check is guarded by `if (!isDev)`. -/
def applicableChecks (env : Env) : List Check :=
  if env.isDev then [Check.nodeVersion, Check.uiBundle]
  else [Check.nodeVersion, Check.backendBundle, Check.uiBundle]

def passes (env : Env) : Check → Bool
  | Check.nodeVersion => decide (18 ≤ env.nodeMajor)
  | Check.backendBundle => env.backendBundleExists
  | Check.uiBundle => env.uiBundleExists

/-- Run checks in order; a failing check hits `failFast` (process exit), so it
is the last check that runs and the only failure reported. Returns the checks
that actually ran and the reported failure, if any. -/
def runChecks (env : Env) : List Check → List Check × Option Check
  | [] => ([], none)
  | c :: rest =>
    if passes env c then
      let p := runChecks env rest
      (c :: p.1, p.2)
    else ([c], some c)

def checkDependencies (env : Env) : List Check × Option Check :=
  runChecks env (applicableChecks env)

/-- Modelled from the spec's words (§4.1): the full list of unmet
preconditions, as the spec claims the report enumerates them in one pass. -/
def specAllUnmet (env : Env) : List Check :=
  (applicableChecks env).filter (fun c => !passes env c)

end Deps

/-! ## Startup sequence and backend stop (`desktop/electron/main.ts`)

`app.whenReady().then(async () => { try { checkDependencies(); await
startBackend(); createWindow(); createTray(); setupAutoUpdater(); } catch
(err) { app.exit(1); } })`. Both `failFast` and the `catch` handler call
`app.exit(1)`, which exits immediately without emitting `before-quit`, so
`stopBackend` never runs on a startup failure. On a user quit, `before-quit`
runs `stopBackend` and the process exits with code 0. -/

namespace Main

inductive Step where
  | checkDependencies
  | startBackend
  | createWindow
  | createTray
  | setupAutoUpdater
deriving DecidableEq, Repr

def startupSequence : List Step :=
  [Step.checkDependencies, Step.startBackend, Step.createWindow,
   Step.createTray, Step.setupAutoUpdater]

structure StartupEnv where
  depsOk : Bool
  backendStarts : Bool
  windowOk : Bool
  trayOk : Bool
  updaterOk : Bool
deriving DecidableEq, Repr, Fintype

def stepOk (env : StartupEnv) : Step → Bool
  | Step.checkDependencies => env.depsOk
  | Step.startBackend => env.backendStarts
  | Step.createWindow => env.windowOk
  | Step.createTray => env.trayOk
  | Step.setupAutoUpdater => env.updaterOk

/-- Which steps start a stoppable subsystem: only `startBackend` spawns a
child process; window/tray/updater are in-process resources. -/
def startsSubsystem : Step → Bool
  | Step.startBackend => true
  | _ => false

structure StartupResult where
  exitCode : Option Nat
  failedStep : Option Nat
  started : List Step
  stopped : List Step
deriving DecidableEq, Repr

/-- Drive the `whenReady` sequence from 1-based step index `k`. A failing step
reaches `app.exit(1)` (via `failFast` or the `catch`): exit code 1, no stop
actions performed, `before-quit` skipped. -/
def runFrom (env : StartupEnv) : Nat → List Step → List Step → StartupResult
  | _, [], started =>
    { exitCode := none, failedStep := none, started := started, stopped := [] }
  | k, s :: rest, started =>
    if stepOk env s then
      runFrom env (k + 1) rest (if startsSubsystem s then started ++ [s] else started)
    else
      { exitCode := some 1, failedStep := some k, started := started, stopped := [] }

def runStartup (env : StartupEnv) : StartupResult :=
  runFrom env 1 startupSequence []

structure BackendState where
  backendProcess : Option Nat
deriving DecidableEq, Repr

inductive StopAction where
  | sigterm (pid : Nat)
deriving DecidableEq, Repr

/-- `stopBackend()`: `if (backendProcess) { backendProcess.kill('SIGTERM');
backendProcess = null; }`. -/
def stopBackend (s : BackendState) : BackendState × List StopAction :=
  match s.backendProcess with
  | some pid => (⟨none⟩, [StopAction.sigterm pid])
  | none => (s, [])

/-- The user-quit path: `before-quit` sets `isQuitting` and calls
`stopBackend`; the process then exits normally with code 0. -/
def cleanShutdown (s : BackendState) : BackendState × List StopAction × Nat :=
  ((stopBackend s).1, (stopBackend s).2, 0)

end Main

/-! ## Docker entrypoint (`docker/entrypoint.sh`)

`check_command` exits with code 1 the first time a required command is
missing (`set -e` semantics plus an explicit `exit 1`), so later commands are
never checked. -/

namespace Entry

def requiredCommands : List String :=
  ["hostapd", "dnsmasq", "iptables", "tcpdump", "tshark"]

def checkCommands (available : List String) : List String → List String × Option String
  | [] => ([], none)
  | c :: rest =>
    if available.contains c then
      let p := checkCommands available rest
      (c :: p.1, p.2)
    else ([c], some c)

def entrypointCheck (available : List String) : List String × Option String :=
  checkCommands available requiredCommands

end Entry

/-! ## Axios response interceptor (`community/ui/src/lib/api.ts`)

On a response error: if `error.response?.status === 401`, remove the stored
token from localStorage and set `window.location.href = '/login'`; in every
case the interceptor returns `Promise.reject(error)`, propagating the error. -/

namespace Api

structure Browser where
  localStorage : List (String × String)
  location : String
deriving DecidableEq, Repr

/-- `localStorage.removeItem(key)`. -/
def removeItem (store : List (String × String)) (key : String) :
    List (String × String) :=
  store.filter (fun p => p.1 ≠ key)

/-- The response interceptor's error handler; `status` is
`error.response?.status` (`none` when there was no response). The returned
`Bool` records that the error was propagated (`Promise.reject`). -/
def onResponseError (status : Option Nat) (b : Browser) : Browser × Bool :=
  if status = some 401 then
    ({ localStorage := removeItem b.localStorage "token", location := "/login" }, true)
  else (b, true)

/-- Concrete browser state: a stored token, another key, on the dashboard. -/
def sampleBrowser : Browser :=
  ⟨[("token", "abc"), ("theme", "dark")], "/dashboard"⟩

end Api

/-! ## Mobile auth store (`mobile/src/stores/authStore.ts`)

`login` sets `{ loading: true, error: null }`, awaits `api.login`; on success
sets `{ isAuthenticated: true, token: response.access_token, loading: false }`
and returns `true`; on failure sets `{ loading: false, error: message }` and
returns `false`. The API call's outcome is reified as `Except String String`
(error message or access token). -/

namespace Mobile

structure AuthState where
  isAuthenticated : Bool
  token : Option String
  serverUrl : String
  loading : Bool
  error : Option String
deriving DecidableEq, Repr

def login (s : AuthState) (result : Except String String) : AuthState × Bool :=
  let s1 : AuthState := { s with loading := true, error := none }
  match result with
  | Except.ok accessToken =>
    ({ s1 with isAuthenticated := true, token := some accessToken, loading := false }, true)
  | Except.error msg =>
    ({ s1 with loading := false, error := some msg }, false)

/-- The store's initial state from `create`: not authenticated, no token, no
server URL, not loading, no error. -/
def initialState : AuthState := ⟨false, none, "", false, none⟩

end Mobile

/-! ## Helper lemmas -/

/-- Once `shouldReconnect` is false and the listener table is empty, any
sequence of socket events is absorbed without actions or state change. -/
theorem WS.run_disconnected (es : List WS.SocketEvent) : ∀ (c : WS.Client),
    c.shouldReconnect = false → c.listeners = [] → WS.run c es = (c, []) := by
  induction es with
  | nil => intro c _ _; rfl
  | cons e es ih =>
    intro c h1 h2
    have hstep : WS.step c e = (c, []) := by
      cases e with
      | close => simp [WS.step, WS.reconnect, h1]
      | message ev => simp [WS.step, WS.emit, h2]
    simp [WS.run, hstep, ih c h1 h2]

/-- `runChecks` reports exactly the first failing check, if any. -/
theorem Deps.runChecks_reported (env : Deps.Env) : ∀ cs : List Deps.Check,
    (Deps.runChecks env cs).2 =
      (cs.filter (fun c => !Deps.passes env c)).head? := by
  intro cs
  induction cs with
  | nil => rfl
  | cons c rest ih =>
    by_cases h : Deps.passes env c = true
    · simp [Deps.runChecks, h, ih]
    · simp [Deps.runChecks, h]

/-- `runChecks` runs the passing checks up to and including the first failing
one; checks after the first failure never run. -/
theorem Deps.runChecks_ran (env : Deps.Env) : ∀ cs : List Deps.Check,
    (Deps.runChecks env cs).1 =
      cs.takeWhile (Deps.passes env) ++
        (cs.dropWhile (Deps.passes env)).take 1 := by
  intro cs
  induction cs with
  | nil => rfl
  | cons c rest ih =>
    by_cases h : Deps.passes env c = true
    · simp [Deps.runChecks, h, ih, List.takeWhile_cons, List.dropWhile_cons]
    · simp [Deps.runChecks, h, List.takeWhile_cons, List.dropWhile_cons]

/-- The entrypoint's `check_command` loop reports exactly the first missing
command, if any. -/
theorem Entry.checkCommands_reported (available : List String) :
    ∀ cs : List String,
    (Entry.checkCommands available cs).2 =
      (cs.filter (fun c => !available.contains c)).head? := by
  intro cs
  induction cs with
  | nil => rfl
  | cons c rest ih =>
    by_cases h : c ∈ available
    · simp [Entry.checkCommands, h, ih]
    · simp [Entry.checkCommands, h]

/-! ## Claim C1 -/

/-- C1 (counterexample): in the environment where dependency checks pass and
the backend starts but window creation (step 3) fails, the backend was started
at step 2 yet nothing is stopped before the process exits — the failure
handler is `app.exit(1)`, which skips `before-quit` and hence `stopBackend`.
The claim requires the stopped list to be exactly the started subsystems of
steps 1..2 in reverse, i.e. `[startBackend]`. -/
theorem C1_counterexample :
    (Main.runStartup ⟨true, true, false, true, true⟩).failedStep = some 3 ∧
    (Main.runStartup ⟨true, true, false, true, true⟩).started =
      [Main.Step.startBackend] ∧
    (Main.runStartup ⟨true, true, false, true, true⟩).stopped ≠
      [Main.Step.startBackend] := by
  decide

/-- C1 (amended): when step k of the startup sequence fails, no stop actions
at all are performed before the process exits — the rollback list is empty —
even though the subsystems started at steps 1..k-1 are exactly the
subsystem-starting steps among the first k-1 steps. -/
theorem C1_no_rollback : ∀ (env : Main.StartupEnv) (k : Nat),
    (Main.runStartup env).failedStep = some k →
    (Main.runStartup env).stopped = [] ∧
    (Main.runStartup env).started =
      (Main.startupSequence.take (k - 1)).filter Main.startsSubsystem := by
  intro env k h
  have hc : ∀ e : Main.StartupEnv,
      (Main.runStartup e).stopped = [] ∧
      ((Main.runStartup e).failedStep.isSome = true →
        (Main.runStartup e).started =
          (Main.startupSequence.take
            ((Main.runStartup e).failedStep.getD 0 - 1)).filter
            Main.startsSubsystem) := by decide
  refine ⟨(hc env).1, ?_⟩
  have h2 := (hc env).2 (by rw [h]; rfl)
  rw [h] at h2
  exact h2

/-- C1 (witness): the amended statement at the concrete environment where
step 3 fails. -/
theorem C1_no_rollback_witness :
    (Main.runStartup ⟨true, true, false, true, true⟩).stopped = [] ∧
    (Main.runStartup ⟨true, true, false, true, true⟩).started =
      (Main.startupSequence.take (3 - 1)).filter Main.startsSubsystem :=
  C1_no_rollback ⟨true, true, false, true, true⟩ 3 (by decide)

/-! ## Claim C2 -/

/-- C2 (counterexample): when step 2 (startBackend) fails, the process exit
code is 1, not the failed step index 2: both `failFast` and the `catch`
handler call `app.exit(1)` unconditionally. -/
theorem C2_counterexample :
    (Main.runStartup ⟨true, false, true, true, true⟩).failedStep = some 2 ∧
    (Main.runStartup ⟨true, false, true, true, true⟩).exitCode ≠ some 2 ∧
    (Main.runStartup ⟨true, false, true, true, true⟩).exitCode = some 1 := by
  decide

/-- C2 (amended): on any startup failure the process exits with code 1
regardless of which step failed; on clean shutdown the exit code is 0. -/
theorem C2_exit_code_one :
    (∀ (env : Main.StartupEnv) (k : Nat),
      (Main.runStartup env).failedStep = some k →
      (Main.runStartup env).exitCode = some 1) ∧
    (∀ s : Main.BackendState, (Main.cleanShutdown s).2.2 = 0) := by
  constructor
  · intro env k h
    have hc : ∀ e : Main.StartupEnv,
        (Main.runStartup e).failedStep.isSome = true →
        (Main.runStartup e).exitCode = some 1 := by decide
    exact hc env (by rw [h]; rfl)
  · intro s
    rfl

/-- C2 (witness): the amended statement at the environment where step 2 fails
and at a backend state holding process 7. -/
theorem C2_exit_code_one_witness :
    (Main.runStartup ⟨true, false, true, true, true⟩).exitCode = some 1 ∧
    (Main.cleanShutdown ⟨some 7⟩).2.2 = 0 :=
  ⟨C2_exit_code_one.1 ⟨true, false, true, true, true⟩ 2 (by decide),
   C2_exit_code_one.2 ⟨some 7⟩⟩

/-! ## Claim C3 -/

/-- C3 (counterexample): in the production environment with Node 16, a
missing backend bundle and a missing UI bundle, three preconditions are
unmet, but only the Node version check runs (the others are skipped by
`failFast`) and only the first failure is reported — the UI bundle failure is
unmet yet never reported. -/
theorem C3_counterexample :
    2 ≤ (Deps.specAllUnmet ⟨16, false, false, false⟩).length ∧
    (Deps.checkDependencies ⟨16, false, false, false⟩).1 ≠
      Deps.applicableChecks ⟨16, false, false, false⟩ ∧
    (Deps.checkDependencies ⟨16, false, false, false⟩).2 =
      some Deps.Check.nodeVersion ∧
    Deps.Check.uiBundle ∈ Deps.specAllUnmet ⟨16, false, false, false⟩ := by
  decide

/-- C3 (amended): dependency validation is fail-fast — only the checks up to
and including the first failing one run, and the reported error names only
the first unmet precondition, both in the Electron `checkDependencies` and in
the Docker entrypoint's `check_command` loop. -/
theorem C3_fail_fast :
    (∀ env : Deps.Env,
      (Deps.checkDependencies env).2 = (Deps.specAllUnmet env).head? ∧
      (Deps.checkDependencies env).1 =
        (Deps.applicableChecks env).takeWhile (Deps.passes env) ++
          ((Deps.applicableChecks env).dropWhile (Deps.passes env)).take 1) ∧
    (∀ available : List String,
      (Entry.entrypointCheck available).2 =
        (Entry.requiredCommands.filter (fun c => !available.contains c)).head?) := by
  constructor
  · intro env
    exact ⟨Deps.runChecks_reported env (Deps.applicableChecks env),
           Deps.runChecks_ran env (Deps.applicableChecks env)⟩
  · intro available
    exact Entry.checkCommands_reported available Entry.requiredCommands

/-! ## Claim C4 -/

/-- C4 (counterexample): with the flow buffer at its maximum length 100,
adding a new flow is not rejected — the list changes, the newest flow is
present, and the oldest flow (99, the last element) is silently evicted. -/
theorem C4_counterexample :
    Traffic.fullFlows.length = Traffic.maxFlows ∧
    Traffic.addFlow Traffic.fullFlows 1000 ≠ Traffic.fullFlows ∧
    99 ∈ Traffic.fullFlows ∧
    99 ∉ Traffic.addFlow Traffic.fullFlows 1000 ∧
    1000 ∈ Traffic.addFlow Traffic.fullFlows 1000 := by
  decide

/-- C4 (amended): at the configured maximum length 100, addFlow accepts the
new item, prepends it, and drops the oldest item: the result is the new flow
followed by the first 99 old flows, and the length stays 100. -/
theorem C4_drop_oldest : ∀ (flows : List Nat) (flow : Nat),
    flows.length = Traffic.maxFlows →
    (Traffic.addFlow flows flow).length = Traffic.maxFlows ∧
    Traffic.addFlow flows flow = flow :: flows.take (Traffic.maxFlows - 1) := by
  intro flows flow h
  constructor
  · have hmin : (Traffic.addFlow flows flow).length =
        min Traffic.maxFlows (flow :: flows).length := by
      simp [Traffic.addFlow, List.length_take]
    rw [hmin]
    simp [h, Traffic.maxFlows]
  · show (flow :: flows).take 100 = flow :: flows.take 99
    rw [show (100 : Nat) = 99 + 1 from rfl, List.take_succ_cons]

/-- C4 (witness): the amended statement at the concrete full buffer
containing flows 0..99. -/
theorem C4_drop_oldest_witness :
    Traffic.fullFlows.length = Traffic.maxFlows ∧
    Traffic.addFlow Traffic.fullFlows 1000 =
      1000 :: Traffic.fullFlows.take (Traffic.maxFlows - 1) :=
  ⟨by decide, (C4_drop_oldest Traffic.fullFlows 1000 (by decide)).2⟩

/-! ## Claim C5 -/

/-- C5 (code evaluated at the failing input): the reconnect delay is linear,
`2000 * attempt`, not exponential. On the third consecutive attempt the
client schedules a reconnect after 6000 ms, whereas doubling the previous
4000 ms delay would require 8000 ms; the repository's own
COMPLETION_SUMMARY.md documents the reconnect as exponential backoff. -/
theorem C5_linear_backoff :
    (WS.reconnect ⟨true, 2, some (), []⟩).2 =
      [WS.Action.scheduleReconnect 6000] ∧
    WS.reconnectDelayMs 1 = 2000 ∧
    WS.reconnectDelayMs 2 = 2 * WS.reconnectDelayMs 1 ∧
    WS.reconnectDelayMs 3 = 6000 ∧
    WS.reconnectDelayMs 3 ≠ 2 * WS.reconnectDelayMs 2 := by
  decide

/-! ## Claim C6 -/

/-- C6 (counterexample): with the consecutive-failure count already at the
threshold 5, a further failed check (socket close) does not increment the
count — it stays 5 and no reconnect is scheduled — refuting the claim that
every failed check increments the consecutive-failure count. -/
theorem C6_counterexample :
    (WS.reconnect ⟨true, 5, some (), []⟩).1.reconnectAttempts = 5 ∧
    (WS.reconnect ⟨true, 5, some (), []⟩).1.reconnectAttempts ≠ 5 + 1 ∧
    (WS.reconnect ⟨true, 5, some (), []⟩).2 = [] := by
  decide

/-- C6 (amended): while reconnection is enabled, a failed check increments
the consecutive-failure count and schedules a reconnect exactly when the
count is below the threshold 5; at or beyond the threshold the state is
untouched and no attempt is scheduled; a successful check (socket open)
resets the count to 0. -/
theorem C6_threshold_behavior : ∀ (c : WS.Client),
    c.shouldReconnect = true →
    ((c.reconnectAttempts < WS.maxReconnectAttempts →
      (WS.reconnect c).1.reconnectAttempts = c.reconnectAttempts + 1 ∧
      (WS.reconnect c).2 =
        [WS.Action.scheduleReconnect
          (WS.reconnectDelayMs (c.reconnectAttempts + 1))]) ∧
    (WS.maxReconnectAttempts ≤ c.reconnectAttempts →
      (WS.reconnect c).1 = c ∧ (WS.reconnect c).2 = []) ∧
    (WS.onOpen c).reconnectAttempts = 0) := by
  intro c h
  refine ⟨?_, ?_, rfl⟩
  · intro hlt
    simp [WS.reconnect, h, hlt]
  · intro hge
    have hnlt : ¬ c.reconnectAttempts < WS.maxReconnectAttempts := by omega
    simp [WS.reconnect, h, hnlt]

/-- C6 (witness): the amended statement at a client below the threshold, one
at the threshold, and the reset on open. -/
theorem C6_threshold_witness :
    (WS.reconnect ⟨true, 0, some (), []⟩).1.reconnectAttempts = 0 + 1 ∧
    (WS.reconnect ⟨true, 5, some (), []⟩).2 = [] ∧
    (WS.onOpen ⟨true, 3, some (), []⟩).reconnectAttempts = 0 :=
  ⟨((C6_threshold_behavior ⟨true, 0, some (), []⟩ rfl).1 (by decide)).1,
   ((C6_threshold_behavior ⟨true, 5, some (), []⟩ rfl).2.1 (by decide)).2,
   (C6_threshold_behavior ⟨true, 3, some (), []⟩ rfl).2.2⟩

/-! ## Claim C7 -/

/-- C7: the stop operations are idempotent. For every state, once
`stopBackend` has run, a second invocation performs no stop action
(`backendProcess` is already null) and leaves the state unchanged; likewise a
second `WebSocketClient.disconnect` closes no socket (`ws` is already null)
and leaves the state unchanged. -/
theorem C7_stop_idempotent : ∀ (s : Main.BackendState) (c : WS.Client),
    Main.stopBackend (Main.stopBackend s).1 = ((Main.stopBackend s).1, []) ∧
    WS.disconnect (WS.disconnect c).1 = ((WS.disconnect c).1, []) := by
  intro s c
  constructor
  · cases h : s.backendProcess <;> simp [Main.stopBackend, h]
  · rfl

/-! ## Claim C8 -/

/-- C8: on a 401 response error the interceptor removes the stored token key
from localStorage, redirects the browser to /login, and still propagates the
rejected promise to the caller; on any other error status the browser state,
including the stored token, is unchanged and the error is still propagated. -/
theorem C8_interceptor : ∀ (b : Api.Browser) (status : Option Nat),
    (∀ v, ("token", v) ∉ (Api.onResponseError (some 401) b).1.localStorage) ∧
    (Api.onResponseError (some 401) b).1.location = "/login" ∧
    (Api.onResponseError (some 401) b).2 = true ∧
    (status ≠ some 401 → Api.onResponseError status b = (b, true)) := by
  intro b status
  refine ⟨?_, by simp [Api.onResponseError], by simp [Api.onResponseError], ?_⟩
  · intro v hv
    simp [Api.onResponseError, Api.removeItem, List.mem_filter] at hv
  · intro h
    simp [Api.onResponseError, h]

/-- C8 (witness): the statement at a browser holding a token and a theme key,
hit by a 401 and by a 500. -/
theorem C8_interceptor_witness :
    ("token", "abc") ∉
      (Api.onResponseError (some 401) Api.sampleBrowser).1.localStorage ∧
    (Api.onResponseError (some 401) Api.sampleBrowser).1.location = "/login" ∧
    Api.onResponseError (some 500) Api.sampleBrowser = (Api.sampleBrowser, true) :=
  ⟨(C8_interceptor Api.sampleBrowser (some 500)).1 "abc",
   (C8_interceptor Api.sampleBrowser (some 500)).2.1,
   (C8_interceptor Api.sampleBrowser (some 500)).2.2.2 (by decide)⟩

/-! ## Claim C9 -/

/-- C9: after disconnect, reconnection stays disabled and the listener table
stays empty, and any subsequent sequence of socket close/message events
produces no actions at all — no reconnect is scheduled and no event is
delivered — and leaves the state unchanged. -/
theorem C9_silent_after_disconnect :
    ∀ (c : WS.Client) (es : List WS.SocketEvent),
    (WS.disconnect c).1.shouldReconnect = false ∧
    (WS.disconnect c).1.listeners = [] ∧
    WS.run (WS.disconnect c).1 es = ((WS.disconnect c).1, []) := by
  intro c es
  exact ⟨rfl, rfl, WS.run_disconnected es (WS.disconnect c).1 rfl rfl⟩

/-! ## Claim C10 -/

/-- C10: starting from an unauthenticated state, a failed login leaves
isAuthenticated false and token null, changes only the loading and error
fields, and returns false; a successful login sets isAuthenticated true,
stores the returned access token, and returns true. -/
theorem C10_login_auth_state : ∀ (s : Mobile.AuthState) (msg tok : String),
    (s.isAuthenticated = false → s.token = none →
      ((Mobile.login s (Except.error msg)).1.isAuthenticated = false ∧
       (Mobile.login s (Except.error msg)).1.token = none ∧
       (Mobile.login s (Except.error msg)).1.serverUrl = s.serverUrl ∧
       (Mobile.login s (Except.error msg)).1.loading = false ∧
       (Mobile.login s (Except.error msg)).1.error = some msg ∧
       (Mobile.login s (Except.error msg)).2 = false)) ∧
    ((Mobile.login s (Except.ok tok)).1.isAuthenticated = true ∧
     (Mobile.login s (Except.ok tok)).1.token = some tok ∧
     (Mobile.login s (Except.ok tok)).2 = true) := by
  intro s msg tok
  refine ⟨?_, rfl, rfl, rfl⟩
  intro h1 h2
  refine ⟨?_, ?_, rfl, rfl, rfl, rfl⟩
  · simpa [Mobile.login] using h1
  · simpa [Mobile.login] using h2

/-- C10 (witness): the statement at the store's initial state, for a failed
and a successful login. -/
theorem C10_login_auth_state_witness :
    (Mobile.login Mobile.initialState (Except.error "Login failed")).1.isAuthenticated
      = false ∧
    (Mobile.login Mobile.initialState (Except.error "Login failed")).1.token = none ∧
    (Mobile.login Mobile.initialState (Except.error "Login failed")).2 = false ∧
    (Mobile.login Mobile.initialState (Except.ok "jwt")).1.isAuthenticated = true :=
  ⟨((C10_login_auth_state Mobile.initialState "Login failed" "jwt").1 rfl rfl).1,
   ((C10_login_auth_state Mobile.initialState "Login failed" "jwt").1 rfl rfl).2.1,
   ((C10_login_auth_state Mobile.initialState "Login failed" "jwt").1 rfl rfl).2.2.2.2.2,
   (C10_login_auth_state Mobile.initialState "Login failed" "jwt").2.1⟩
